import Mathlib

/-!
Verification of the response-processing pipeline of NbEmailPassAuthProvider
(src/framework/auth/providers/email-pass-auth.provider.ts).

The provider pipes every HTTP action (login, register, logout, requestPass,
resetPass, refreshToken) through RxJS map / catchError stages.  We embed the
pipeline as total functions: values thrown inside a stage become the `error`
side of an `Except`, and the trailing catchError stage turns any error into
an NbAuthResult with success = false, mirroring the source.

Collaborators of the provider that are part of the repository but not under
src/ (the helper getDeepFromObject, the NbAuthResult value object, and
createFailResponse from NbAbstractAuthProvider) are modelled from the spec;
each such definition carries a doc comment saying so.
-/

/-- JS-like values flowing through the pipeline: nested response bodies,
error payloads, extracted tokens, message and error lists.  `vUndefined` is the
JS `undefined`, `vNull` the JS `null`. -/
inductive DVal where
  | vUndefined : DVal
  | vNull : DVal
  | vStr : String → DVal
  | vStrList : List String → DVal
  | vObj : List (String × DVal) → DVal

/-- JS truthiness of a `DVal`: `undefined`, `null` and the empty string are
falsy; non-empty strings, arrays and objects are truthy. -/
def DVal.truthy : DVal → Bool
  | .vUndefined => false
  | .vNull => false
  | .vStr s => !(s == "")
  | .vStrList _ => true
  | .vObj _ => true

/-- Lookup of a field in an object field list (first match wins, as JS
object keys are unique). -/
def fieldsGet : List (String × DVal) → String → Option DVal
  | [], _ => none
  | p :: rest, k => if p.1 = k then some p.2 else fieldsGet rest k

/-- JS property assignment on an object field list: an existing key keeps
its position and gets the new value, a fresh key is appended. -/
def fieldsSet : List (String × DVal) → String → DVal → List (String × DVal)
  | [], k, v => [(k, v)]
  | p :: rest, k, v => if p.1 = k then (k, v) :: rest else p :: fieldsSet rest k v

/-- Property read on a `DVal`: only objects have fields. -/
def DVal.objGet : DVal → String → Option DVal
  | .vObj fields, k => fieldsGet fields k
  | _, _ => none

/-- Property assignment on a `DVal`: only objects are updated. -/
def DVal.setField : DVal → String → DVal → DVal
  | .vObj fields, k, v => .vObj (fieldsSet fields k v)
  | other, _, _ => other

/-- Walk a container along a list of path segments; a missing segment, a
non-object intermediate, or an `undefined` field aborts the walk. -/
def walkPath : DVal → List String → Option DVal
  | v, [] => some v
  | v, k :: ks =>
    match v.objGet k with
    | some next =>
      match next with
      | .vUndefined => none
      | _ => walkPath next ks
    | none => none

/-- Split of a character list at the dot separators (accumulating the
current segment in reverse). -/
def splitOnDotAux : List Char → List Char → List String
  | [], acc => [String.mk acc.reverse]
  | c :: cs, acc =>
    if c = '.' then String.mk acc.reverse :: splitOnDotAux cs []
    else splitOnDotAux cs (c :: acc)

/-- Split of a dotted key path into its segments, as JS split with the dot
separator. -/
def splitOnDot (s : String) : List String := splitOnDotAux s.data []

/-- Modelled from the spec: the helper getDeepFromObject (imported from
../helpers, which is not under src/).  Per section 4.2 of the spec,
extract(container, path, fallback) walks the container along the dotted
path; if the final value is present it is returned; if it is absent or the
walk fails at any segment, the first-supplied fallback is returned, or
undefined when no fallback is given (callers below pass `DVal.vUndefined`
explicitly in that case). -/
def getDeepFromObject (object : DVal) (name : String) (defaultValue : DVal) : DVal :=
  match walkPath object (splitOnDot name) with
  | some v => v
  | none => defaultValue

/-- A successful HTTP response envelope (status + body), as obtained with
observe: response. -/
structure HttpResponse where
  status : Nat
  body : DVal

/-- A structured HTTP error response (the Angular HttpErrorResponse), whose
`error` field carries the error body. -/
structure HttpErrorResponse where
  status : Nat
  error : DVal

/-- A value thrown inside the pipeline and caught by the trailing
catchError stage:
  * `httpErr` — a structured HTTP error response from the transport;
  * `synthetic` — the value built by createFailResponse on alwaysFail;
  * `tokenMissing` — the `Error` thrown by validateToken;
  * `netError` — an opaque transport failure (network error, timeout).
Only `httpErr` passes the `instanceof HttpErrorResponse` test in the
catch block. -/
inductive ThrownVal where
  | httpErr : HttpErrorResponse → ThrownVal
  | synthetic : DVal → ThrownVal
  | tokenMissing : ThrownVal
  | netError : String → ThrownVal

/-- Modelled from the spec: createFailResponse comes from
NbAbstractAuthProvider, which is not under src/.  Per section 4.3 step 4 the
pipeline constructs a synthetic failure from the input data when alwaysFail
is set; per section 7 this configured failure is a distinct failure kind
from a transport structured failure, so it is not an HTTP error response. -/
def createFailResponse (data : DVal) : ThrownVal := .synthetic data

/-- The value flowing through a pipeline on the success side: either the
HTTP response envelope, or the empty object placeholder `{}` that logout
starts from when the URL is falsy. -/
inductive PipeVal where
  | emptyObj : PipeVal
  | httpRes : HttpResponse → PipeVal

/-- `res.body` as read by the default getters: the placeholder `{}` has no
`body` property, so the read yields `undefined`. -/
def PipeVal.resBody : PipeVal → DVal
  | .emptyObj => .vUndefined
  | .httpRes r => r.body

/-- Outcome of one transport call: either a response envelope or a thrown
failure. -/
inductive TransportOutcome where
  | success : HttpResponse → TransportOutcome
  | failure : ThrownVal → TransportOutcome

/-- The response stored in an NbAuthResult: the pipeline value on the
success branch, or the caught thrown value on the failure branch. -/
inductive ResVal where
  | fromPipe : PipeVal → ResVal
  | caught : ThrownVal → ResVal

/-- Modelled from the spec: NbAuthResult (services/auth-result, not under
src/) is the immutable result value object of section 3: success flag, raw
response or error, resolved redirect or null, error strings (empty on
success), message strings (empty on failure), and the extracted token or
null for actions that produce no token.  Constructor calls that omit the
messages argument store the empty list, and calls that omit the token
argument store null, per section 3. -/
structure NbAuthResult where
  success : Bool
  response : ResVal
  redirect : Option String
  errors : DVal
  messages : DVal
  token : DVal

/-- A configured endpoint value: a string, or JS null / undefined.  In a
string concatenation JS renders null as "null" and undefined as
"undefined". -/
inductive JSStr where
  | str : String → JSStr
  | jsNull : JSStr
  | jsUndefined : JSStr

/-- How a `JSStr` renders inside a JS string concatenation. -/
def JSStr.concatString : JSStr → String
  | .str s => s
  | .jsNull => "null"
  | .jsUndefined => "undefined"

structure RedirectCfg where
  success : Option String
  failure : Option String

/-- Per-action configuration (one per login, register, logout, requestPass,
resetPass, refreshToken), as in the defaultConfig object of the source. -/
structure ActionCfg where
  alwaysFail : Bool
  rememberMe : Bool
  endpoint : JSStr
  method : String
  redirect : RedirectCfg
  defaultErrors : List String
  defaultMessages : List String
  resetPasswordTokenKey : String

/-- The token section of the configuration: a dotted key and a getter
function receiving the module name and the pipeline value. -/
structure TokenCfg where
  key : String
  getter : String → PipeVal → DVal

/-- The errors section: a dotted key and a getter receiving the module name
and the structured error response. -/
structure ErrorsCfg where
  key : String
  getter : String → HttpErrorResponse → DVal

/-- The messages section: a dotted key and a getter receiving the module
name and the pipeline value. -/
structure MessagesCfg where
  key : String
  getter : String → PipeVal → DVal

/-- The merged provider configuration (NgEmailPassAuthProviderConfig). -/
structure ProviderConfig where
  baseEndpoint : String
  login : ActionCfg
  register : ActionCfg
  logout : ActionCfg
  requestPass : ActionCfg
  resetPass : ActionCfg
  refreshToken : ActionCfg
  token : TokenCfg
  errors : ErrorsCfg
  messages : MessagesCfg

/-- getConfigValue resolution of an action name to its ActionCfg section. -/
def actionConfig (cfg : ProviderConfig) : String → Option ActionCfg
  | "login" => some cfg.login
  | "register" => some cfg.register
  | "logout" => some cfg.logout
  | "requestPass" => some cfg.requestPass
  | "resetPass" => some cfg.resetPass
  | "refreshToken" => some cfg.refreshToken
  | _ => none

/-- getConfigValue of `action.redirect.success`. -/
def actionRedirectSuccess (cfg : ProviderConfig) (action : String) : Option String :=
  match actionConfig cfg action with
  | some a => a.redirect.success
  | none => none

/-- getConfigValue of `action.redirect.failure`. -/
def actionRedirectFailure (cfg : ProviderConfig) (action : String) : Option String :=
  match actionConfig cfg action with
  | some a => a.redirect.failure
  | none => none

/-- getActionEndpoint: the base endpoint concatenated with the action
endpoint (JS string concatenation: a null endpoint renders as "null"). -/
def getActionEndpoint (cfg : ProviderConfig) (action : String) : String :=
  let actionEndpoint : JSStr :=
    match actionConfig cfg action with
    | some a => a.endpoint
    | none => .jsUndefined
  cfg.baseEndpoint ++ actionEndpoint.concatString

/-- Per-action defaultErrors of the built-in default configuration, as read
by the default errors getter via getConfigValue of `module.defaultErrors`
(undefined for an unknown module). -/
def defaultConfigErrors : String → DVal
  | "login" => .vStrList ["Login/Email combination is not correct, please try again."]
  | "register" => .vStrList ["Something went wrong, please try again."]
  | "logout" => .vStrList ["Something went wrong, please try again."]
  | "requestPass" => .vStrList ["Something went wrong, please try again."]
  | "resetPass" => .vStrList ["Something went wrong, please try again."]
  | "refreshToken" => .vStrList ["Something went wrong, please try again."]
  | _ => .vUndefined

/-- Per-action defaultMessages of the built-in default configuration, as
read by the default messages getter via getConfigValue of
`module.defaultMessages`. -/
def defaultConfigMessages : String → DVal
  | "login" => .vStrList ["You have been successfully logged in."]
  | "register" => .vStrList ["You have been successfully registered."]
  | "logout" => .vStrList ["You have been successfully logged out."]
  | "requestPass" => .vStrList ["Reset password instructions have been sent to your email."]
  | "resetPass" => .vStrList ["Your password has been successfully changed."]
  | "refreshToken" => .vStrList ["Your token has been successfully refreshed."]
  | _ => .vUndefined

/-- The default token getter: getDeepFromObject(res.body, token.key), no
fallback. -/
def defaultTokenGetter : String → PipeVal → DVal :=
  fun _module res => getDeepFromObject res.resBody "data.token" .vUndefined

/-- The default errors getter: getDeepFromObject(res.error, errors.key,
module.defaultErrors). -/
def defaultErrorsGetter : String → HttpErrorResponse → DVal :=
  fun module res => getDeepFromObject res.error "data.errors" (defaultConfigErrors module)

/-- The default messages getter: getDeepFromObject(res.body, messages.key,
module.defaultMessages). -/
def defaultMessagesGetter : String → PipeVal → DVal :=
  fun module res => getDeepFromObject res.resBody "data.messages" (defaultConfigMessages module)

/-- The defaultConfig object of NbEmailPassAuthProvider (source lines
125-210). -/
def defaultConfig : ProviderConfig where
  baseEndpoint := "/api/auth/"
  login :=
    { alwaysFail := false
      rememberMe := true
      endpoint := .str "login"
      method := "post"
      redirect := { success := some "/", failure := none }
      defaultErrors := ["Login/Email combination is not correct, please try again."]
      defaultMessages := ["You have been successfully logged in."]
      resetPasswordTokenKey := "" }
  register :=
    { alwaysFail := false
      rememberMe := true
      endpoint := .str "register"
      method := "post"
      redirect := { success := some "/", failure := none }
      defaultErrors := ["Something went wrong, please try again."]
      defaultMessages := ["You have been successfully registered."]
      resetPasswordTokenKey := "" }
  logout :=
    { alwaysFail := false
      rememberMe := false
      endpoint := .str "logout"
      method := "delete"
      redirect := { success := some "/", failure := none }
      defaultErrors := ["Something went wrong, please try again."]
      defaultMessages := ["You have been successfully logged out."]
      resetPasswordTokenKey := "" }
  requestPass :=
    { alwaysFail := false
      rememberMe := false
      endpoint := .str "request-pass"
      method := "post"
      redirect := { success := some "/", failure := none }
      defaultErrors := ["Something went wrong, please try again."]
      defaultMessages := ["Reset password instructions have been sent to your email."]
      resetPasswordTokenKey := "" }
  resetPass :=
    { alwaysFail := false
      rememberMe := false
      endpoint := .str "reset-pass"
      method := "put"
      redirect := { success := some "/", failure := none }
      defaultErrors := ["Something went wrong, please try again."]
      defaultMessages := ["Your password has been successfully changed."]
      resetPasswordTokenKey := "reset_password_token" }
  refreshToken :=
    { alwaysFail := false
      rememberMe := false
      endpoint := .str "refresh-token"
      method := "post"
      redirect := { success := none, failure := none }
      defaultErrors := ["Something went wrong, please try again."]
      defaultMessages := ["Your token has been successfully refreshed."]
      resetPasswordTokenKey := "" }
  token := { key := "data.token", getter := defaultTokenGetter }
  errors := { key := "data.errors", getter := defaultErrorsGetter }
  messages := { key := "data.messages", getter := defaultMessagesGetter }

/-- The validateToken operator (source lines 468-481): on the success side
it extracts the token with the configured getter; a falsy token throws an
`Error` after a console.warn naming the configured token key (we record the
warned key in the returned list). -/
def validateToken (cfg : ProviderConfig) (module : String) :
    Except ThrownVal PipeVal → Except ThrownVal PipeVal × List String
  | .error t => (.error t, [])
  | .ok res =>
    let token := cfg.token.getter module res
    if token.truthy then (.ok res, [])
    else (.error .tokenMissing, [cfg.token.key])

/-- The shared catchError block of every action (e.g. source lines
238-253): a structured HttpErrorResponse yields the configured errors
getter value, any other caught value yields the fixed literal list, and the
result carries success = false, the caught value, and the failure
redirect. -/
def catchErrorResult (cfg : ProviderConfig) (module : String) (t : ThrownVal) : NbAuthResult :=
  let errors : DVal :=
    match t with
    | .httpErr e => cfg.errors.getter module e
    | _ => .vStrList ["Something went wrong."]
  { success := false
    response := .caught t
    redirect := actionRedirectFailure cfg module
    errors := errors
    messages := .vStrList []
    token := .vNull }

/-- Lift one transport outcome into the pipeline. -/
def transportStep : TransportOutcome → Except ThrownVal PipeVal
  | .success r => .ok (.httpRes r)
  | .failure t => .error t

/-- The alwaysFail map stage: on the success side, a set flag throws the
synthetic fail response built from the input data. -/
def alwaysFailStep (flag : Bool) (data : DVal) :
    Except ThrownVal PipeVal → Except ThrownVal PipeVal
  | .ok res => if flag then .error (createFailResponse data) else .ok res
  | .error t => .error t

/-- authenticate (login, source lines 216-255).  The transport capability
is a function from the sent body to one outcome; the second component of
the result collects the console.warn diagnostics of validateToken. -/
def authenticate (cfg : ProviderConfig) (transport : DVal → TransportOutcome)
    (data : DVal) : NbAuthResult × List String :=
  let step1 := alwaysFailStep cfg.login.alwaysFail data (transportStep (transport data))
  let stepTok := validateToken cfg "login" step1
  match stepTok.1 with
  | .ok res =>
    ({ success := true
       response := .fromPipe res
       redirect := actionRedirectSuccess cfg "login"
       errors := .vStrList []
       messages := cfg.messages.getter "login" res
       token := cfg.token.getter "login" res }, stepTok.2)
  | .error t => (catchErrorResult cfg "login" t, stepTok.2)

/-- register (source lines 257-296). -/
def register (cfg : ProviderConfig) (transport : DVal → TransportOutcome)
    (data : DVal) : NbAuthResult × List String :=
  let step1 := alwaysFailStep cfg.register.alwaysFail data (transportStep (transport data))
  let stepTok := validateToken cfg "register" step1
  match stepTok.1 with
  | .ok res =>
    ({ success := true
       response := .fromPipe res
       redirect := actionRedirectSuccess cfg "register"
       errors := .vStrList []
       messages := cfg.messages.getter "register" res
       token := cfg.token.getter "register" res }, stepTok.2)
  | .error t => (catchErrorResult cfg "register" t, stepTok.2)

/-- requestPassword (source lines 298-335): no token validation, the
success result omits the token argument (stored as null), and
createFailResponse is called with no argument (undefined data). -/
def requestPassword (cfg : ProviderConfig) (transport : DVal → TransportOutcome)
    (data : DVal) : NbAuthResult :=
  let step1 := alwaysFailStep cfg.requestPass.alwaysFail .vUndefined (transportStep (transport data))
  match step1 with
  | .ok res =>
    { success := true
      response := .fromPipe res
      redirect := actionRedirectSuccess cfg "requestPass"
      errors := .vStrList []
      messages := cfg.messages.getter "requestPass" res
      token := .vNull }
  | .error t => catchErrorResult cfg "requestPass" t

/-- Output of one resetPassword invocation: the result, and the body the
transport was invoked with. -/
structure ResetPasswordRun where
  result : NbAuthResult
  sentBody : DVal

/-- resetPassword (source lines 337-377): before sending, the field named
by resetPass.resetPasswordTokenKey is assigned the route query parameter of
the same name (undefined when absent), then the pipeline runs on the
modified body; no token validation, token omitted from the success
result. -/
def resetPassword (cfg : ProviderConfig) (queryParams : String → Option String)
    (transport : DVal → TransportOutcome) (data : DVal) : ResetPasswordRun :=
  let tokenKey := cfg.resetPass.resetPasswordTokenKey
  let queryVal : DVal :=
    match queryParams tokenKey with
    | some s => .vStr s
    | none => .vUndefined
  let body := data.setField tokenKey queryVal
  let step1 := alwaysFailStep cfg.resetPass.alwaysFail .vUndefined (transportStep (transport body))
  let result :=
    match step1 with
    | .ok res =>
      { success := true
        response := .fromPipe res
        redirect := actionRedirectSuccess cfg "resetPass"
        errors := .vStrList []
        messages := cfg.messages.getter "resetPass" res
        token := .vNull }
    | .error t => catchErrorResult cfg "resetPass" t
  { result := result, sentBody := body }

/-- Output of one logout invocation: the result, and whether the HTTP
request was issued. -/
structure LogoutRun where
  result : NbAuthResult
  networkCalled : Bool

/-- logout (source lines 379-424): starts from observableOf of the empty
object; when the full URL is falsy (the empty string) the HTTP request is
skipped and the empty placeholder flows on, otherwise the transport outcome
replaces it; then the alwaysFail stage and the usual success / catch
branches, with the token omitted from the success result. -/
def logout (cfg : ProviderConfig) (transport : TransportOutcome) : LogoutRun :=
  let url := getActionEndpoint cfg "logout"
  let step0 : Except ThrownVal PipeVal × Bool :=
    if url = "" then (.ok .emptyObj, false)
    else (transportStep transport, true)
  let step1 := alwaysFailStep cfg.logout.alwaysFail .vUndefined step0.1
  let result :=
    match step1 with
    | .ok res =>
      { success := true
        response := .fromPipe res
        redirect := actionRedirectSuccess cfg "logout"
        errors := .vStrList []
        messages := cfg.messages.getter "logout" res
        token := .vNull }
    | .error t => catchErrorResult cfg "logout" t
  { result := result, networkCalled := step0.2 }

/-- refreshToken (source lines 426-466). -/
def refreshToken (cfg : ProviderConfig) (transport : DVal → TransportOutcome)
    (data : DVal) : NbAuthResult × List String :=
  let step1 := alwaysFailStep cfg.refreshToken.alwaysFail data (transportStep (transport data))
  let stepTok := validateToken cfg "refreshToken" step1
  match stepTok.1 with
  | .ok res =>
    ({ success := true
       response := .fromPipe res
       redirect := actionRedirectSuccess cfg "refreshToken"
       errors := .vStrList []
       messages := cfg.messages.getter "refreshToken" res
       token := cfg.token.getter "refreshToken" res }, stepTok.2)
  | .error t => (catchErrorResult cfg "refreshToken" t, stepTok.2)

/-- Configuration used by concrete witnesses: the default configuration
with every alwaysFail flag switched on. -/
def cfgAllFail : ProviderConfig :=
  { defaultConfig with
      login := { defaultConfig.login with alwaysFail := true }
      register := { defaultConfig.register with alwaysFail := true }
      logout := { defaultConfig.logout with alwaysFail := true }
      requestPass := { defaultConfig.requestPass with alwaysFail := true }
      resetPass := { defaultConfig.resetPass with alwaysFail := true }
      refreshToken := { defaultConfig.refreshToken with alwaysFail := true } }

/-- A sample successful transport response used by concrete witnesses. -/
def sampleRes : HttpResponse := { status := 200, body := .vObj [] }

/-- C1: for every action (login, register, logout, requestPass, resetPass,
refreshToken), when the configured alwaysFail flag of that action is true,
the returned NbAuthResult has success = false, whether the transport call
succeeds or fails. -/
theorem alwaysFail_forces_failure (cfg : ProviderConfig)
    (transport : DVal → TransportOutcome) (ltransport : TransportOutcome)
    (queryParams : String → Option String) (data : DVal) :
    (cfg.login.alwaysFail = true →
      (authenticate cfg transport data).1.success = false) ∧
    (cfg.register.alwaysFail = true →
      (register cfg transport data).1.success = false) ∧
    (cfg.logout.alwaysFail = true →
      (logout cfg ltransport).result.success = false) ∧
    (cfg.requestPass.alwaysFail = true →
      (requestPassword cfg transport data).success = false) ∧
    (cfg.resetPass.alwaysFail = true →
      (resetPassword cfg queryParams transport data).result.success = false) ∧
    (cfg.refreshToken.alwaysFail = true →
      (refreshToken cfg transport data).1.success = false) := by
  refine ⟨?_, ?_, ?_, ?_, ?_, ?_⟩
  · intro h
    cases htr : transport data <;>
      simp [authenticate, alwaysFailStep, transportStep, validateToken, catchErrorResult, htr, h]
  · intro h
    cases htr : transport data <;>
      simp [register, alwaysFailStep, transportStep, validateToken, catchErrorResult, htr, h]
  · intro h
    by_cases hu : getActionEndpoint cfg "logout" = "" <;>
      cases ltransport <;>
        simp [logout, alwaysFailStep, transportStep, catchErrorResult, hu, h]
  · intro h
    cases htr : transport data <;>
      simp [requestPassword, alwaysFailStep, transportStep, catchErrorResult, htr, h]
  · intro h
    cases htr : transport ((data.setField cfg.resetPass.resetPasswordTokenKey
        (match queryParams cfg.resetPass.resetPasswordTokenKey with
         | some s => .vStr s
         | none => .vUndefined))) <;>
      simp [resetPassword, alwaysFailStep, transportStep, catchErrorResult, htr, h]
  · intro h
    cases htr : transport data <;>
      simp [refreshToken, alwaysFailStep, transportStep, validateToken, catchErrorResult, htr, h]

/-- Witness for C1 at the concrete configuration cfgAllFail, with a
successful transport outcome everywhere, so that the failure comes from the
alwaysFail flags alone. -/
theorem alwaysFail_forces_failure_witness :
    (authenticate cfgAllFail (fun _ => .success sampleRes) (.vObj [])).1.success = false ∧
    (register cfgAllFail (fun _ => .success sampleRes) (.vObj [])).1.success = false ∧
    (logout cfgAllFail (.success sampleRes)).result.success = false ∧
    (requestPassword cfgAllFail (fun _ => .success sampleRes) (.vObj [])).success = false ∧
    (resetPassword cfgAllFail (fun _ => none) (fun _ => .success sampleRes) (.vObj [])).result.success = false ∧
    (refreshToken cfgAllFail (fun _ => .success sampleRes) (.vObj [])).1.success = false := by
  have h := alwaysFail_forces_failure cfgAllFail (fun _ => .success sampleRes)
    (.success sampleRes) (fun _ => none) (.vObj [])
  exact ⟨h.1 rfl, h.2.1 rfl, h.2.2.1 rfl, h.2.2.2.1 rfl, h.2.2.2.2.1 rfl, h.2.2.2.2.2 rfl⟩

/-- C2 counterexample: with the default configuration, a 200 response whose
body carries no value at data.token makes authenticate throw the
token-missing Error, which is not an HttpErrorResponse; the catch block
therefore produces the fixed literal list, not the login defaultErrors list
claimed. -/
theorem login_no_token_errors_cex :
    (authenticate defaultConfig (fun _ => .success ⟨200, .vObj []⟩) (.vObj [])).1.errors ≠
      DVal.vStrList ["Login/Email combination is not correct, please try again."] := by
  intro h
  have h2 : DVal.vStrList ["Something went wrong."] =
      DVal.vStrList ["Login/Email combination is not correct, please try again."] := h
  injection h2 with h3
  exact absurd h3 (by decide)

/-- C2 amended: with the default configuration, a 200 response whose body
carries no value at data.token yields success = false, the errors list
["Something went wrong."] (the thrown token-missing Error is not an
HttpErrorResponse, so the configured errors getter and the login
defaultErrors are bypassed), and a diagnostic naming the configured token
key data.token. -/
theorem login_no_token_default_config :
    (authenticate defaultConfig (fun _ => .success ⟨200, .vObj []⟩) (.vObj [])).1.success = false ∧
    (authenticate defaultConfig (fun _ => .success ⟨200, .vObj []⟩) (.vObj [])).1.errors =
      .vStrList ["Something went wrong."] ∧
    (authenticate defaultConfig (fun _ => .success ⟨200, .vObj []⟩) (.vObj [])).2 =
      ["data.token"] :=
  ⟨rfl, rfl, rfl⟩

/-- The default configuration with the logout endpoint set to the empty
string (base endpoint untouched). -/
def cfgLogoutEmptyEndpoint : ProviderConfig :=
  { defaultConfig with logout := { defaultConfig.logout with endpoint := .str "" } }

/-- The default configuration with the logout endpoint set to null (base
endpoint untouched). -/
def cfgLogoutNullEndpoint : ProviderConfig :=
  { defaultConfig with logout := { defaultConfig.logout with endpoint := .jsNull } }

/-- C3 counterexample: with the default base endpoint /api/auth/, a logout
endpoint that is the empty string or null still yields a truthy full URL
(/api/auth/ resp. /api/auth/null), so the HTTP request is issued — the
claim that an empty or null endpoint alone suppresses the network call is
false. -/
theorem logout_empty_endpoint_cex :
    (logout cfgLogoutEmptyEndpoint (.success sampleRes)).networkCalled = true ∧
    (logout cfgLogoutNullEndpoint (.success sampleRes)).networkCalled = true := by
  constructor <;> decide

/-- C3 amended: logout skips the network call exactly when the full URL —
the base endpoint concatenated with the configured logout endpoint — is the
empty string; it then proceeds through the normal success / failure
branching on the empty placeholder response, still honoring alwaysFail and
the configured redirects.  An empty or null endpoint alone does not
suppress the call when the base endpoint is non-empty (a null endpoint
concatenates as the text null). -/
theorem logout_empty_url_skips_network (cfg : ProviderConfig)
    (transport : TransportOutcome) (h : getActionEndpoint cfg "logout" = "") :
    (logout cfg transport).networkCalled = false ∧
    (cfg.logout.alwaysFail = true →
      (logout cfg transport).result.success = false ∧
      (logout cfg transport).result.redirect = cfg.logout.redirect.failure) ∧
    (cfg.logout.alwaysFail = false →
      (logout cfg transport).result.success = true ∧
      (logout cfg transport).result.response = .fromPipe .emptyObj ∧
      (logout cfg transport).result.redirect = cfg.logout.redirect.success) := by
  refine ⟨?_, fun hf => ?_, fun hf => ?_⟩
  · simp [logout, alwaysFailStep, transportStep, catchErrorResult,
      actionRedirectFailure, actionRedirectSuccess, actionConfig, h]
  · simp [logout, alwaysFailStep, transportStep, catchErrorResult,
      actionRedirectFailure, actionRedirectSuccess, actionConfig, h, hf]
  · simp [logout, alwaysFailStep, transportStep, catchErrorResult,
      actionRedirectFailure, actionRedirectSuccess, actionConfig, h, hf]

/-- A local-only logout configuration: empty base endpoint and empty logout
endpoint, so the full logout URL is empty. -/
def cfgLocalLogout : ProviderConfig :=
  { defaultConfig with
      baseEndpoint := ""
      logout := { defaultConfig.logout with endpoint := .str "" } }

/-- Witness for the amended C3 at the local-only logout configuration. -/
theorem logout_empty_url_skips_network_witness :
    getActionEndpoint cfgLocalLogout "logout" = "" ∧
    (logout cfgLocalLogout (.success sampleRes)).networkCalled = false ∧
    (logout cfgLocalLogout (.success sampleRes)).result.success = true := by
  have h := logout_empty_url_skips_network cfgLocalLogout (.success sampleRes) (by decide)
  exact ⟨by decide, h.1, (h.2.2 rfl).1⟩

/-- C4: for the token-requiring actions login, register and refreshToken,
when the configured token getter applied to a successful transport response
yields a falsy value, the returned NbAuthResult has success = false: token
validation forces the failure branch instead of the success result. -/
theorem token_missing_forces_failure (cfg : ProviderConfig) (r : HttpResponse) (data : DVal) :
    ((cfg.token.getter "login" (.httpRes r)).truthy = false →
      (authenticate cfg (fun _ => .success r) data).1.success = false) ∧
    ((cfg.token.getter "register" (.httpRes r)).truthy = false →
      (register cfg (fun _ => .success r) data).1.success = false) ∧
    ((cfg.token.getter "refreshToken" (.httpRes r)).truthy = false →
      (refreshToken cfg (fun _ => .success r) data).1.success = false) := by
  refine ⟨fun h => ?_, fun h => ?_, fun h => ?_⟩
  · by_cases ha : cfg.login.alwaysFail <;>
      simp [authenticate, alwaysFailStep, transportStep, validateToken, catchErrorResult, ha, h]
  · by_cases ha : cfg.register.alwaysFail <;>
      simp [register, alwaysFailStep, transportStep, validateToken, catchErrorResult, ha, h]
  · by_cases ha : cfg.refreshToken.alwaysFail <;>
      simp [refreshToken, alwaysFailStep, transportStep, validateToken, catchErrorResult, ha, h]

/-- Witness for C4 at the default configuration: a 200 response with an
empty object body makes the default token getter yield undefined (falsy),
and all three token-requiring actions fail. -/
theorem token_missing_forces_failure_witness :
    (defaultConfig.token.getter "login" (.httpRes sampleRes)).truthy = false ∧
    (authenticate defaultConfig (fun _ => .success sampleRes) (.vObj [])).1.success = false ∧
    (register defaultConfig (fun _ => .success sampleRes) (.vObj [])).1.success = false ∧
    (refreshToken defaultConfig (fun _ => .success sampleRes) (.vObj [])).1.success = false := by
  have h := token_missing_forces_failure defaultConfig sampleRes (.vObj [])
  exact ⟨by decide, h.1 (by decide), h.2.1 (by decide), h.2.2 (by decide)⟩

/-- A 200 response carrying a token at data.token, as in concrete
scenario 1 of the spec. -/
def resWithToken : HttpResponse :=
  { status := 200, body := .vObj [("data", .vObj [("token", .vStr "abc")])] }

/-- C5: on the success branch of every action the result is built with
success = true, the raw response, the configured redirect.success of the
action, an empty errors list, and the configured messages getter applied to
(action, response); the configured token getter value is included for
login, register and refreshToken, and the token is omitted (stored as null)
for logout, requestPass and resetPass.  With the default configuration, a
login response with status 200 and body data.token = abc yields
success = true, token abc, the default success message, and redirect /. -/
theorem success_branch_shape (cfg : ProviderConfig) (r : HttpResponse)
    (data : DVal) (queryParams : String → Option String) :
    (cfg.login.alwaysFail = false →
      (cfg.token.getter "login" (.httpRes r)).truthy = true →
      (authenticate cfg (fun _ => .success r) data).1 =
        { success := true
          response := .fromPipe (.httpRes r)
          redirect := cfg.login.redirect.success
          errors := .vStrList []
          messages := cfg.messages.getter "login" (.httpRes r)
          token := cfg.token.getter "login" (.httpRes r) }) ∧
    (cfg.register.alwaysFail = false →
      (cfg.token.getter "register" (.httpRes r)).truthy = true →
      (register cfg (fun _ => .success r) data).1 =
        { success := true
          response := .fromPipe (.httpRes r)
          redirect := cfg.register.redirect.success
          errors := .vStrList []
          messages := cfg.messages.getter "register" (.httpRes r)
          token := cfg.token.getter "register" (.httpRes r) }) ∧
    (cfg.refreshToken.alwaysFail = false →
      (cfg.token.getter "refreshToken" (.httpRes r)).truthy = true →
      (refreshToken cfg (fun _ => .success r) data).1 =
        { success := true
          response := .fromPipe (.httpRes r)
          redirect := cfg.refreshToken.redirect.success
          errors := .vStrList []
          messages := cfg.messages.getter "refreshToken" (.httpRes r)
          token := cfg.token.getter "refreshToken" (.httpRes r) }) ∧
    (cfg.requestPass.alwaysFail = false →
      (requestPassword cfg (fun _ => .success r) data) =
        { success := true
          response := .fromPipe (.httpRes r)
          redirect := cfg.requestPass.redirect.success
          errors := .vStrList []
          messages := cfg.messages.getter "requestPass" (.httpRes r)
          token := .vNull }) ∧
    (cfg.resetPass.alwaysFail = false →
      (resetPassword cfg queryParams (fun _ => .success r) data).result =
        { success := true
          response := .fromPipe (.httpRes r)
          redirect := cfg.resetPass.redirect.success
          errors := .vStrList []
          messages := cfg.messages.getter "resetPass" (.httpRes r)
          token := .vNull }) ∧
    (cfg.logout.alwaysFail = false → getActionEndpoint cfg "logout" ≠ "" →
      (logout cfg (.success r)).result =
        { success := true
          response := .fromPipe (.httpRes r)
          redirect := cfg.logout.redirect.success
          errors := .vStrList []
          messages := cfg.messages.getter "logout" (.httpRes r)
          token := .vNull }) ∧
    ((authenticate defaultConfig (fun _ => .success resWithToken) (.vObj [])).1.success = true ∧
      (authenticate defaultConfig (fun _ => .success resWithToken) (.vObj [])).1.token = .vStr "abc" ∧
      (authenticate defaultConfig (fun _ => .success resWithToken) (.vObj [])).1.messages =
        .vStrList ["You have been successfully logged in."] ∧
      (authenticate defaultConfig (fun _ => .success resWithToken) (.vObj [])).1.redirect = some "/") := by
  refine ⟨fun h ht => ?_, fun h ht => ?_, fun h ht => ?_, fun h => ?_, fun h => ?_,
    fun h hu => ?_, ⟨rfl, rfl, rfl, rfl⟩⟩
  · simp [authenticate, alwaysFailStep, transportStep, validateToken,
      actionRedirectSuccess, actionConfig, h, ht]
  · simp [register, alwaysFailStep, transportStep, validateToken,
      actionRedirectSuccess, actionConfig, h, ht]
  · simp [refreshToken, alwaysFailStep, transportStep, validateToken,
      actionRedirectSuccess, actionConfig, h, ht]
  · simp [requestPassword, alwaysFailStep, transportStep,
      actionRedirectSuccess, actionConfig, h]
  · simp [resetPassword, alwaysFailStep, transportStep,
      actionRedirectSuccess, actionConfig, h]
  · simp [logout, alwaysFailStep, transportStep,
      actionRedirectSuccess, actionConfig, h, hu]

/-- Witness for C5: the login conjunct applied at the default configuration
and concrete scenario 1, the hypotheses discharged by evaluation. -/
theorem success_branch_shape_witness :
    (authenticate defaultConfig (fun _ => .success resWithToken) (.vObj [])).1 =
      { success := true
        response := .fromPipe (.httpRes resWithToken)
        redirect := some "/"
        errors := .vStrList []
        messages := .vStrList ["You have been successfully logged in."]
        token := .vStr "abc" } := by
  have h := success_branch_shape defaultConfig resWithToken (.vObj []) (fun _ => none)
  exact (h.1 rfl (by decide)).trans rfl

/-- C6: on the failure branch of every action, a caught structured HTTP
error response yields the configured errors getter applied to (action,
errorResponse); any other caught failure (here an opaque transport failure)
yields exactly the fixed literal list ["Something went wrong."],
independent of configuration.  The logout conjuncts assume a non-empty full
URL, since otherwise no transport outcome enters the pipeline. -/
theorem failure_branch_errors (cfg : ProviderConfig) (e : HttpErrorResponse)
    (msg : String) (data : DVal) (queryParams : String → Option String) :
    ((authenticate cfg (fun _ => .failure (.httpErr e)) data).1.errors =
      cfg.errors.getter "login" e) ∧
    ((authenticate cfg (fun _ => .failure (.netError msg)) data).1.errors =
      .vStrList ["Something went wrong."]) ∧
    ((register cfg (fun _ => .failure (.httpErr e)) data).1.errors =
      cfg.errors.getter "register" e) ∧
    ((register cfg (fun _ => .failure (.netError msg)) data).1.errors =
      .vStrList ["Something went wrong."]) ∧
    ((requestPassword cfg (fun _ => .failure (.httpErr e)) data).errors =
      cfg.errors.getter "requestPass" e) ∧
    ((requestPassword cfg (fun _ => .failure (.netError msg)) data).errors =
      .vStrList ["Something went wrong."]) ∧
    ((resetPassword cfg queryParams (fun _ => .failure (.httpErr e)) data).result.errors =
      cfg.errors.getter "resetPass" e) ∧
    ((resetPassword cfg queryParams (fun _ => .failure (.netError msg)) data).result.errors =
      .vStrList ["Something went wrong."]) ∧
    ((refreshToken cfg (fun _ => .failure (.httpErr e)) data).1.errors =
      cfg.errors.getter "refreshToken" e) ∧
    ((refreshToken cfg (fun _ => .failure (.netError msg)) data).1.errors =
      .vStrList ["Something went wrong."]) ∧
    (getActionEndpoint cfg "logout" ≠ "" →
      (logout cfg (.failure (.httpErr e))).result.errors = cfg.errors.getter "logout" e) ∧
    (getActionEndpoint cfg "logout" ≠ "" →
      (logout cfg (.failure (.netError msg))).result.errors =
        .vStrList ["Something went wrong."]) := by
  refine ⟨?_, ?_, ?_, ?_, ?_, ?_, ?_, ?_, ?_, ?_, fun hu => ?_, fun hu => ?_⟩
  · simp [authenticate, alwaysFailStep, transportStep, validateToken, catchErrorResult]
  · simp [authenticate, alwaysFailStep, transportStep, validateToken, catchErrorResult]
  · simp [register, alwaysFailStep, transportStep, validateToken, catchErrorResult]
  · simp [register, alwaysFailStep, transportStep, validateToken, catchErrorResult]
  · simp [requestPassword, alwaysFailStep, transportStep, catchErrorResult]
  · simp [requestPassword, alwaysFailStep, transportStep, catchErrorResult]
  · simp [resetPassword, alwaysFailStep, transportStep, catchErrorResult]
  · simp [resetPassword, alwaysFailStep, transportStep, catchErrorResult]
  · simp [refreshToken, alwaysFailStep, transportStep, validateToken, catchErrorResult]
  · simp [refreshToken, alwaysFailStep, transportStep, validateToken, catchErrorResult]
  · simp [logout, alwaysFailStep, transportStep, catchErrorResult, hu]
  · simp [logout, alwaysFailStep, transportStep, catchErrorResult, hu]

/-- The structured 400 failure of concrete scenario 3 of the spec, carrying
an error list at data.errors. -/
def errUnknownEmail : HttpErrorResponse :=
  { status := 400, error := .vObj [("data", .vObj [("errors", .vStrList ["Unknown email"])])] }

/-- Witness for C6 at the default configuration: the structured failure of
concrete scenario 3 surfaces the extracted error list, and an opaque
transport failure surfaces the fixed literal. -/
theorem failure_branch_errors_witness :
    (requestPassword defaultConfig (fun _ => .failure (.httpErr errUnknownEmail)) (.vObj [])).errors =
      .vStrList ["Unknown email"] ∧
    (logout defaultConfig (.failure (.httpErr errUnknownEmail))).result.errors =
      .vStrList ["Unknown email"] ∧
    (logout defaultConfig (.failure (.netError "timeout"))).result.errors =
      .vStrList ["Something went wrong."] := by
  have h := failure_branch_errors defaultConfig errUnknownEmail "timeout" (.vObj []) (fun _ => none)
  refine ⟨h.2.2.2.2.1.trans rfl, ?_, ?_⟩
  · exact (h.2.2.2.2.2.2.2.2.2.2.1 (by decide)).trans rfl
  · exact (h.2.2.2.2.2.2.2.2.2.2.2 (by decide)).trans rfl

/-- C7: for all four failure kinds — alwaysFail, structured transport
failure, opaque transport failure (both covered by the arbitrary thrown
value t), and token-missing — every action produces a terminal NbAuthResult
with success = false.  The embedding is a total function into NbAuthResult:
every thrown value is consumed by the catchError stage, so no exception
escapes the pipeline and the caller always receives a Result. -/
theorem all_failures_yield_result (cfg : ProviderConfig) (t : ThrownVal)
    (r : HttpResponse) (data : DVal) (queryParams : String → Option String) :
    ((authenticate cfg (fun _ => .failure t) data).1.success = false) ∧
    ((register cfg (fun _ => .failure t) data).1.success = false) ∧
    ((requestPassword cfg (fun _ => .failure t) data).success = false) ∧
    ((resetPassword cfg queryParams (fun _ => .failure t) data).result.success = false) ∧
    ((refreshToken cfg (fun _ => .failure t) data).1.success = false) ∧
    (getActionEndpoint cfg "logout" ≠ "" →
      (logout cfg (.failure t)).result.success = false) ∧
    (cfg.login.alwaysFail = true →
      (authenticate cfg (fun _ => .success r) data).1.success = false) ∧
    (cfg.register.alwaysFail = true →
      (register cfg (fun _ => .success r) data).1.success = false) ∧
    (cfg.requestPass.alwaysFail = true →
      (requestPassword cfg (fun _ => .success r) data).success = false) ∧
    (cfg.resetPass.alwaysFail = true →
      (resetPassword cfg queryParams (fun _ => .success r) data).result.success = false) ∧
    (cfg.refreshToken.alwaysFail = true →
      (refreshToken cfg (fun _ => .success r) data).1.success = false) ∧
    (cfg.logout.alwaysFail = true →
      (logout cfg (.success r)).result.success = false) ∧
    ((cfg.token.getter "login" (.httpRes r)).truthy = false →
      (authenticate cfg (fun _ => .success r) data).1.success = false) ∧
    ((cfg.token.getter "register" (.httpRes r)).truthy = false →
      (register cfg (fun _ => .success r) data).1.success = false) ∧
    ((cfg.token.getter "refreshToken" (.httpRes r)).truthy = false →
      (refreshToken cfg (fun _ => .success r) data).1.success = false) := by
  refine ⟨?_, ?_, ?_, ?_, ?_, fun hu => ?_, fun h => ?_, fun h => ?_, fun h => ?_,
    fun h => ?_, fun h => ?_, fun h => ?_, fun h => ?_, fun h => ?_, fun h => ?_⟩
  · simp [authenticate, alwaysFailStep, transportStep, validateToken, catchErrorResult]
  · simp [register, alwaysFailStep, transportStep, validateToken, catchErrorResult]
  · simp [requestPassword, alwaysFailStep, transportStep, catchErrorResult]
  · simp [resetPassword, alwaysFailStep, transportStep, catchErrorResult]
  · simp [refreshToken, alwaysFailStep, transportStep, validateToken, catchErrorResult]
  · simp [logout, alwaysFailStep, transportStep, catchErrorResult, hu]
  · simp [authenticate, alwaysFailStep, transportStep, validateToken, catchErrorResult, h]
  · simp [register, alwaysFailStep, transportStep, validateToken, catchErrorResult, h]
  · simp [requestPassword, alwaysFailStep, transportStep, catchErrorResult, h]
  · simp [resetPassword, alwaysFailStep, transportStep, catchErrorResult, h]
  · simp [refreshToken, alwaysFailStep, transportStep, validateToken, catchErrorResult, h]
  · by_cases hu : getActionEndpoint cfg "logout" = "" <;>
      simp [logout, alwaysFailStep, transportStep, catchErrorResult, h, hu]
  · by_cases ha : cfg.login.alwaysFail <;>
      simp [authenticate, alwaysFailStep, transportStep, validateToken, catchErrorResult, h, ha]
  · by_cases ha : cfg.register.alwaysFail <;>
      simp [register, alwaysFailStep, transportStep, validateToken, catchErrorResult, h, ha]
  · by_cases ha : cfg.refreshToken.alwaysFail <;>
      simp [refreshToken, alwaysFailStep, transportStep, validateToken, catchErrorResult, h, ha]

/-- Witness for C7 at the configuration with every alwaysFail flag on, an
opaque transport failure, and the sample 200 response whose body carries no
token. -/
theorem all_failures_yield_result_witness :
    (authenticate cfgAllFail (fun _ => .failure (.netError "down")) (.vObj [])).1.success = false ∧
    (logout cfgAllFail (.failure (.netError "down"))).result.success = false ∧
    (authenticate cfgAllFail (fun _ => .success sampleRes) (.vObj [])).1.success = false ∧
    (refreshToken cfgAllFail (fun _ => .success sampleRes) (.vObj [])).1.success = false := by
  have h := all_failures_yield_result cfgAllFail (.netError "down") sampleRes (.vObj [])
    (fun _ => none)
  exact ⟨h.1, h.2.2.2.2.2.1 (by decide), h.2.2.2.2.2.2.1 rfl,
    h.2.2.2.2.2.2.2.2.2.2.2.2.2.2 (by decide)⟩

/-- Assigning a key and then reading it back yields the assigned value. -/
theorem fieldsGet_fieldsSet_same (l : List (String × DVal)) (k : String) (v : DVal) :
    fieldsGet (fieldsSet l k v) k = some v := by
  induction l with
  | nil => simp [fieldsSet, fieldsGet]
  | cons p rest ih =>
    by_cases h : p.1 = k
    · simp [fieldsSet, fieldsGet, h]
    · simp [fieldsSet, fieldsGet, h, ih]

/-- Assigning a key leaves every other key unchanged. -/
theorem fieldsGet_fieldsSet_other (l : List (String × DVal)) (k k2 : String) (v : DVal)
    (hne : k2 ≠ k) : fieldsGet (fieldsSet l k v) k2 = fieldsGet l k2 := by
  induction l with
  | nil => simp [fieldsSet, fieldsGet, Ne.symm hne]
  | cons p rest ih =>
    by_cases h : p.1 = k
    · simp [fieldsSet, fieldsGet, h, Ne.symm hne]
    · simp [fieldsSet, fieldsGet, h, ih]

/-- C8: when the route query parameter named by
resetPass.resetPasswordTokenKey is present with value v, the body sent to
the transport carries that field with value v, and every other
caller-submitted field is passed unchanged. -/
theorem resetPassword_injects_query_token (cfg : ProviderConfig)
    (queryParams : String → Option String) (transport : DVal → TransportOutcome)
    (fields : List (String × DVal)) (v : String)
    (hq : queryParams cfg.resetPass.resetPasswordTokenKey = some v) :
    ((resetPassword cfg queryParams transport (.vObj fields)).sentBody).objGet
        cfg.resetPass.resetPasswordTokenKey = some (.vStr v) ∧
    (∀ k, k ≠ cfg.resetPass.resetPasswordTokenKey →
      ((resetPassword cfg queryParams transport (.vObj fields)).sentBody).objGet k =
        (DVal.vObj fields).objGet k) := by
  constructor
  · simp [resetPassword, DVal.objGet, DVal.setField, hq, fieldsGet_fieldsSet_same]
  · intro k hk
    simp [resetPassword, DVal.objGet, DVal.setField, hq,
      fieldsGet_fieldsSet_other _ _ _ _ hk]

/-- Query-parameter source of the C8 witness: reset_password_token is XYZ
(concrete scenario 5 of the spec). -/
def qpXYZ : String → Option String :=
  fun k => if k = "reset_password_token" then some "XYZ" else none

/-- Witness for C8 at the default configuration and concrete scenario 5:
the sent body carries reset_password_token XYZ next to the submitted
password field. -/
theorem resetPassword_injects_query_token_witness :
    (resetPassword defaultConfig qpXYZ (fun _ => .success sampleRes)
        (.vObj [("password", .vStr "newpass")])).sentBody.objGet "reset_password_token" =
      some (.vStr "XYZ") ∧
    (resetPassword defaultConfig qpXYZ (fun _ => .success sampleRes)
        (.vObj [("password", .vStr "newpass")])).sentBody.objGet "password" =
      some (.vStr "newpass") := by
  have h := resetPassword_injects_query_token defaultConfig qpXYZ
    (fun _ => .success sampleRes) [("password", .vStr "newpass")] "XYZ" (by decide)
  exact ⟨h.1, (h.2 "password" (by decide)).trans rfl⟩

/-- C9: resetPassword overwrites the body field named by
resetPass.resetPasswordTokenKey even when the route query parameter is
absent: the field is then set to undefined, clobbering any caller-supplied
value of that name, while every other field of the caller-supplied body is
passed to the transport unchanged. -/
theorem resetPassword_clobbers_token_field (cfg : ProviderConfig)
    (queryParams : String → Option String) (transport : DVal → TransportOutcome)
    (fields : List (String × DVal))
    (hq : queryParams cfg.resetPass.resetPasswordTokenKey = none) :
    ((resetPassword cfg queryParams transport (.vObj fields)).sentBody).objGet
        cfg.resetPass.resetPasswordTokenKey = some .vUndefined ∧
    (∀ k, k ≠ cfg.resetPass.resetPasswordTokenKey →
      ((resetPassword cfg queryParams transport (.vObj fields)).sentBody).objGet k =
        (DVal.vObj fields).objGet k) := by
  constructor
  · simp [resetPassword, DVal.objGet, DVal.setField, hq, fieldsGet_fieldsSet_same]
  · intro k hk
    simp [resetPassword, DVal.objGet, DVal.setField, hq,
      fieldsGet_fieldsSet_other _ _ _ _ hk]

/-- Witness for C9 at the default configuration, no query parameters, and a
body that already carries a reset_password_token field: the field is
overwritten with undefined and the password field is preserved. -/
theorem resetPassword_clobbers_token_field_witness :
    (resetPassword defaultConfig (fun _ => none) (fun _ => .success sampleRes)
        (.vObj [("reset_password_token", .vStr "caller"), ("password", .vStr "x")])).sentBody.objGet
        "reset_password_token" = some .vUndefined ∧
    (resetPassword defaultConfig (fun _ => none) (fun _ => .success sampleRes)
        (.vObj [("reset_password_token", .vStr "caller"), ("password", .vStr "x")])).sentBody.objGet
        "password" = some (.vStr "x") := by
  have h := resetPassword_clobbers_token_field defaultConfig (fun _ => none)
    (fun _ => .success sampleRes)
    [("reset_password_token", .vStr "caller"), ("password", .vStr "x")] rfl
  exact ⟨h.1, (h.2 "password" (by decide)).trans rfl⟩

/-- C10: for login, register and refreshToken, the alwaysFail check
strictly precedes token validation: with the flag on and a successful
transport call, the whole output is independent of the configured token
getter (it is never invoked, since neither the validation stage on the
error side nor the catch block uses it), and the failure carried into the
catch block is the synthetic fail response built from the input data, not
the token-missing error. -/
theorem alwaysFail_precedes_token_validation (cfg : ProviderConfig)
    (g g2 : String → PipeVal → DVal) (r : HttpResponse) (data : DVal) :
    (cfg.login.alwaysFail = true →
      (authenticate { cfg with token := { key := cfg.token.key, getter := g } }
          (fun _ => .success r) data =
        authenticate { cfg with token := { key := cfg.token.key, getter := g2 } }
          (fun _ => .success r) data) ∧
      (authenticate cfg (fun _ => .success r) data).1.response =
        .caught (createFailResponse data) ∧
      (authenticate cfg (fun _ => .success r) data).1.response ≠
        .caught .tokenMissing) ∧
    (cfg.register.alwaysFail = true →
      (register { cfg with token := { key := cfg.token.key, getter := g } }
          (fun _ => .success r) data =
        register { cfg with token := { key := cfg.token.key, getter := g2 } }
          (fun _ => .success r) data) ∧
      (register cfg (fun _ => .success r) data).1.response =
        .caught (createFailResponse data) ∧
      (register cfg (fun _ => .success r) data).1.response ≠
        .caught .tokenMissing) ∧
    (cfg.refreshToken.alwaysFail = true →
      (refreshToken { cfg with token := { key := cfg.token.key, getter := g } }
          (fun _ => .success r) data =
        refreshToken { cfg with token := { key := cfg.token.key, getter := g2 } }
          (fun _ => .success r) data) ∧
      (refreshToken cfg (fun _ => .success r) data).1.response =
        .caught (createFailResponse data) ∧
      (refreshToken cfg (fun _ => .success r) data).1.response ≠
        .caught .tokenMissing) := by
  refine ⟨fun h => ⟨?_, ?_, ?_⟩, fun h => ⟨?_, ?_, ?_⟩, fun h => ⟨?_, ?_, ?_⟩⟩ <;>
    simp [authenticate, register, refreshToken, alwaysFailStep, transportStep,
      validateToken, catchErrorResult, createFailResponse,
      actionRedirectFailure, actionConfig, h]

/-- Witness for C10 at the all-fail configuration: swapping the token
getter between a constant token and a constant undefined does not change
the output, and the caught failure is the synthetic one. -/
theorem alwaysFail_precedes_token_validation_witness :
    (authenticate { cfgAllFail with
          token := { key := cfgAllFail.token.key, getter := fun _ _ => .vStr "A" } }
        (fun _ => .success sampleRes) (.vObj []) =
      authenticate { cfgAllFail with
          token := { key := cfgAllFail.token.key, getter := fun _ _ => .vUndefined } }
        (fun _ => .success sampleRes) (.vObj [])) ∧
    (authenticate cfgAllFail (fun _ => .success sampleRes) (.vObj [])).1.response =
      .caught (createFailResponse (.vObj [])) := by
  have h := alwaysFail_precedes_token_validation cfgAllFail
    (fun _ _ => .vStr "A") (fun _ _ => .vUndefined) sampleRes (.vObj [])
  exact ⟨(h.1 rfl).1, (h.1 rfl).2.1⟩
